import Mathlib

/- Verification of the comfy_af1 provisioning pipeline: a shallow embedding of
   comfyui_wrapper.py, download_models.py and setup_custom_nodes.py, followed by
   theorems settling the specification claims. -/

namespace Comfy

/-- The ASCII single-quote character (code point 39), used by the missing-module
regular expression in comfyui_wrapper.py. -/
def quoteChar : Char := Char.ofNat 39

/-- String form of the single quote. -/
def quoteStr : String := String.singleton quoteChar

/-- Bool-valued prefix test on character lists. -/
def isPrefixL : List Char → List Char → Bool
  | [], _ => true
  | _ :: _, [] => false
  | a :: as, b :: bs => a == b && isPrefixL as bs

/-- Contiguous-substring test on character lists, scanning every start position. -/
def containsL (pat : List Char) : List Char → Bool
  | [] => isPrefixL pat []
  | c :: cs => isPrefixL pat (c :: cs) || containsL pat cs

/-- Python `pat in s` membership test on strings. -/
def strContains (s pat : String) : Bool := containsL pat.data s.data

/-- The marker checked by the wrapper read loop: `"No module named" in line`. -/
def missingMarker : String := "No module named"

/-- The opening text of the regex `No module named '([^']+)'`. -/
def quotedNameMarker : List Char := ("No module named ").data ++ [quoteChar]

/-- Attempt of the missing-module regex at one start position: the literal text,
then a nonempty run of non-quote characters, then a closing quote. -/
def matchNameAt (cs : List Char) : Option (List Char) :=
  if isPrefixL quotedNameMarker cs then
    let rest := cs.drop quotedNameMarker.length
    let name := rest.takeWhile (fun c => !(c == quoteChar))
    match rest.drop name.length with
    | c :: _ => if c == quoteChar && 0 < name.length then some name else none
    | [] => none
  else none

/-- Left-to-right regex search over all start positions (re.search semantics). -/
def searchName : List Char → Option (List Char)
  | [] => none
  | c :: cs =>
    match matchNameAt (c :: cs) with
    | some n => some n
    | none => searchName cs

/-- detect_missing_module from comfyui_wrapper.py: extract the quoted module
name from an error line via `re.search(r"No module named '([^']+)'", msg)`. -/
def detect_missing_module (s : String) : Option String :=
  (searchName s.data).map String.mk

/-- OPTIONAL_MODULES from comfyui_wrapper.py: the fixed allow-list of
auto-installable modules. -/
def OPTIONAL_MODULES : List String :=
  ["aiohttp", "requests", "psutil", "scipy", "comfyui-frontend-package",
   "torchsde", "omegaconf", "accelerate", "diffusers", "controlnet_aux",
   "opencv-python", "mediapipe", "ultralytics", "insightface", "basicsr",
   "facexlib", "gfpgan", "realesrgan", "codeformer", "clip",
   "open_clip_torch", "timm", "kornia", "albumentations", "imageio",
   "imageio-ffmpeg", "av", "moviepy", "pytorch_lightning", "wandb",
   "tensorboard", "tensorboardX", "onnxruntime", "onnxruntime-gpu",
   "comfyui_controlnet_aux", "comfyui_ultralytics", "comfyui_insightface",
   "comfyui_face_restoration", "comfyui_anime_segmentation",
   "comfyui_face_detection", "comfyui_face_parsing", "comfyui_face_landmark",
   "comfyui_face_swap", "comfyui_face_enhancement"]

/-- auto_install_missing from comfyui_wrapper.py, instrumented with the number
of install_module invocations. `installOk` is the outcome the environment gives
to the `uv pip install` subprocess. Returns (value returned, installs run). -/
def auto_install_missing (installOk : Bool) (line : String) : Bool × Nat :=
  match detect_missing_module line with
  | some m => if OPTIONAL_MODULES.contains m then (installOk, 1) else (false, 0)
  | none => (false, 0)

/-- Outcome the environment assigns to one launch of the child process:
its output lines and exit code, a wrapper-level exception, or a
KeyboardInterrupt during supervision. -/
inductive LaunchOut where
  | run : List String → Int → LaunchOut
  | exn : LaunchOut
  | interrupt : LaunchOut

/-- Environment of one supervised run: per-launch child behaviour and
per-launch result of the remediation install. -/
structure SupEnv where
  launch : Nat → LaunchOut
  installOk : Nat → Bool

/-- Observable outcome of run_comfyui_with_retry: the returned Bool, the number
of child launches, and the number of install_module invocations. -/
structure SupRun where
  result : Bool
  launches : Nat
  installs : Nat
deriving DecidableEq

/-- The read loop reacts to the first line containing the missing-module
marker; later lines are never reached. -/
def findMissing (lines : List String) : Option String :=
  lines.find? fun l => strContains l missingMarker

/-- Body of run_comfyui_with_retry from comfyui_wrapper.py. Fuel is
`max_retries - retry_count`; `i` counts launches so far. Faithful to the
source: a missing-module line terminates the child; if auto_install_missing
succeeds, `retry_count += 1` and `break` — but the `break` leaves the inner
read loop and falls through to the `return True` path, so no relaunch happens;
if it fails, return False. Stream end without a marker line returns True with
the child exit status ignored. A wrapper-level exception increments
retry_count and loops, returning False on exhaustion; KeyboardInterrupt
returns True. -/
def runGo (env : SupEnv) : Nat → Nat → SupRun
  | 0, _ => ⟨false, 0, 0⟩
  | Nat.succ r, i =>
    match env.launch i with
    | .interrupt => ⟨true, 1, 0⟩
    | .exn =>
      if r == 0 then ⟨false, 1, 0⟩
      else
        let rest := runGo env r (i + 1)
        ⟨rest.result, rest.launches + 1, rest.installs⟩
    | .run ls _ =>
      match findMissing ls with
      | none => ⟨true, 1, 0⟩
      | some l =>
        let a := auto_install_missing (env.installOk i) l
        if a.1 then ⟨true, 1, a.2⟩ else ⟨false, 1, a.2⟩

/-- run_comfyui_with_retry from comfyui_wrapper.py (default max_retries = 3). -/
def run_comfyui_with_retry (env : SupEnv) (maxRetries : Nat) : SupRun :=
  runGo env maxRetries 0

/-- Process exit code of the `__main__` block: 1 when the wrapper reports
failure, 0 otherwise. -/
def wrapperExit (env : SupEnv) : Nat :=
  if (run_comfyui_with_retry env 3).result then 0 else 1

/-- A child trace that crashes (exit code 1) without any missing-module line. -/
def envCrash : SupEnv :=
  ⟨fun _ => LaunchOut.run ["RuntimeError: CUDA init failed", "Process exited"] 1,
   fun _ => false⟩

/-- A child trace whose first marker line names a module outside the allow-list. -/
def lineNotListed : String :=
  "No module named " ++ quoteStr ++ "definitely_not_listed" ++ quoteStr

/-- Environment for the disallowed-module scenario. -/
def envDisallowed : SupEnv :=
  ⟨fun _ => LaunchOut.run [lineNotListed] 1, fun _ => false⟩

/-- A marker line with no quoted module name, so the regex cannot match. -/
def lineNoName : String := "No module named somemodule"

/-- Environment for the marker-without-extractable-name scenario. -/
def envNoName : SupEnv :=
  ⟨fun _ => LaunchOut.run [lineNoName] 1, fun _ => false⟩

/-- A marker line naming the allow-listed module timm. -/
def lineTimm : String := "No module named " ++ quoteStr ++ "timm" ++ quoteStr

/-- Environment where every launch hits an allow-listed missing module and the
remediation install succeeds. -/
def envRemediate : SupEnv :=
  ⟨fun _ => LaunchOut.run [lineTimm] 1, fun _ => true⟩

/-- Abstraction of a source URL, holding the parts download_models.py reads:
the civitai.com membership test, the models/ segment test with its model id,
and the basename of the parsed URL path. -/
structure Url where
  civitai : Bool
  hasModels : Bool
  modelId : String
  basename : String
deriving DecidableEq

/-- get_filename_from_url from download_models.py. -/
def get_filename_from_url (u : Url) : String :=
  if u.civitai && u.hasModels then "temp_model_" ++ u.modelId ++ ".safetensors"
  else u.basename

/-- Observable outcome of one fetch call: the Bool the Python coroutine
returns, the number of network transfer operations it issued, the file (path
and byte size) left at a final destination name, and whether a temporary file
was left behind. -/
structure FetchRes where
  ok : Bool
  net : Nat
  promoted : Option (String × Nat)
  tmpLeft : Bool
deriving DecidableEq

/-- Data carried by an exception escaping the body of a fetch attempt: network
operations already issued and whether a temporary file was left behind. -/
structure FetchErr where
  net : Nat
  tmpLeft : Bool
deriving DecidableEq

/-- Environment outcome of one aiohttp request: an exception before the body
streams, or a response with status, the Content-Disposition filename (already
extracted by the `filename="(.+)"` regex), the byte count streamed, and
whether an exception interrupts the streaming writes. -/
inductive HttpOut where
  | exnBefore : HttpOut
  | resp : Nat → Option String → Nat → Bool → HttpOut

/-- Environment outcome of one aria2c subprocess: exit with a returncode
having written the given bytes to the destination, a missing binary
(FileNotFoundError), or another exception. -/
inductive PrimOut where
  | exited : Int → Nat → PrimOut
  | missingBinary : PrimOut
  | exn : PrimOut

/-- The filename chosen by download_with_aiohttp: the Content-Disposition
name when the header provides one, else the URL-derived name. -/
def resolvedName (u : Url) (cd : Option String) : String :=
  match cd with
  | some f => f
  | none => get_filename_from_url u

/-- Body of the `try` in download_with_aiohttp from download_models.py:
issue the GET; on HTTP 200 resolve the filename, skip when the destination
already exists, otherwise stream to `<dest>.tmp` and rename only when the
size is positive, unlinking the temporary file on a zero-byte result; non-200
responses report failure. An error carries what the body had already done. -/
def aiohttpBody (u : Url) (destDir : String) (ex : String → Bool) :
    HttpOut → Except FetchErr FetchRes
  | .exnBefore => .error ⟨0, false⟩
  | .resp status cd body wexn =>
    if status == 200 then
      if ex (destDir ++ "/" ++ resolvedName u cd) then .ok ⟨true, 1, none, false⟩
      else if wexn then .error ⟨1, true⟩
      else if 0 < body then
        .ok ⟨true, 1, some (destDir ++ "/" ++ resolvedName u cd, body), false⟩
      else .ok ⟨false, 1, none, false⟩
    else .ok ⟨false, 1, none, false⟩

/-- download_with_aiohttp from download_models.py: the body above wrapped in
`except Exception: return False` (the handler performs no cleanup). -/
def download_with_aiohttp (u : Url) (destDir : String) (ex : String → Bool)
    (hout : HttpOut) : Except FetchErr FetchRes :=
  match aiohttpBody u destDir ex hout with
  | .ok r => .ok r
  | .error e => .ok ⟨false, e.net, none, e.tmpLeft⟩

/-- Add the aria2c invocation to the operation count of a fallback result. -/
def addNet (k : Nat) : Except FetchErr FetchRes → Except FetchErr FetchRes
  | .ok r => .ok { r with net := r.net + k }
  | .error e => .error { e with net := e.net + k }

/-- download_with_aria2c from download_models.py: civitai URLs are delegated
to aiohttp with `dest` (the joined file path, not the directory) as the
destination directory; otherwise aria2c runs with the URL-derived filename
directly at the final destination, returning success on exit code 0 with no
size check, and falling back to aiohttp on a non-zero exit, a missing binary
(FileNotFoundError) or any other exception. -/
def download_with_aria2c (u : Url) (destDir : String) (ex : String → Bool)
    (prim : PrimOut) (hout : HttpOut) : Except FetchErr FetchRes :=
  if u.civitai then
    download_with_aiohttp u (destDir ++ "/" ++ get_filename_from_url u) ex hout
  else
    match prim with
    | .exited code bytes =>
      if code == 0 then
        .ok ⟨true, 1, some (destDir ++ "/" ++ get_filename_from_url u, bytes), false⟩
      else addNet 1 (download_with_aiohttp u destDir ex hout)
    | .missingBinary => download_with_aiohttp u destDir ex hout
    | .exn => download_with_aiohttp u destDir ex hout

/-- One scheduled download coroutine of download_models_parallel. -/
inductive FetchTask where
  | aio : String → Url → FetchTask
  | aria : String → Url → FetchTask

/-- Category directory `<base>/<category>`. -/
def catDir (base cat : String) : String := base ++ "/" ++ cat

/-- Predicted destination path `<base>/<category>/<filename>` used by the
pre-download existence check. -/
def destPath (base cat : String) (u : Url) : String :=
  catDir base cat ++ "/" ++ get_filename_from_url u

/-- Task construction of download_models_parallel from download_models.py:
civitai URLs always get an aiohttp task; with aria2c available other URLs are
skipped when the predicted destination exists and otherwise get an aria2c
task; without aria2c every URL gets an aiohttp task with no pre-check. -/
def buildFetchTasks (avail : Bool) (base : String) (ex : String → Bool)
    (cfg : List (String × List Url)) : List FetchTask :=
  cfg.flatMap fun p =>
    p.2.filterMap fun u =>
      if u.civitai then some (FetchTask.aio p.1 u)
      else if avail then
        if ex (destPath base p.1 u) then none else some (FetchTask.aria p.1 u)
      else some (FetchTask.aio p.1 u)

/-- Environment for one scheduled task: outcomes of its aria2c subprocess and
its aiohttp request. -/
structure TaskEnv where
  prim : PrimOut
  hout : HttpOut

/-- Run one scheduled task. -/
def runFetchTask (base : String) (ex : String → Bool) (te : TaskEnv) :
    FetchTask → Except FetchErr FetchRes
  | .aio cat u => download_with_aiohttp u (catDir base cat) ex te.hout
  | .aria cat u => download_with_aria2c u (catDir base cat) ex te.prim te.hout

/-- asyncio.gather over the task list with return_exceptions=True, each task
run against its own environment (indexed from `i`). -/
def runFetchAll (base : String) (ex : String → Bool) (envs : Nat → TaskEnv) :
    List FetchTask → Nat → List (Except FetchErr FetchRes)
  | [], _ => []
  | t :: ts, i => runFetchTask base ex (envs i) t :: runFetchAll base ex envs ts (i + 1)

/-- download_models_parallel from download_models.py: build the task list and
gather the per-task outcomes. -/
def download_models_parallel (avail : Bool) (base : String) (ex : String → Bool)
    (envs : Nat → TaskEnv) (cfg : List (String × List Url)) :
    List (Except FetchErr FetchRes) :=
  runFetchAll base ex envs (buildFetchTasks avail base ex cfg) 0

/-- Counting predicate of `sum(1 for r in results if r is True)`. -/
def isOkTrue : Except FetchErr FetchRes → Bool
  | .ok r => r.ok
  | .error _ => false

/-- Counting predicate of `sum(1 for r in results if isinstance(r, Exception))`. -/
def isExn : Except FetchErr FetchRes → Bool
  | .ok _ => false
  | .error _ => true

/-- success_count of download_models_parallel. -/
def fetchSuccessCount (rs : List (Except FetchErr FetchRes)) : Nat :=
  (rs.filter isOkTrue).length

/-- failed_count of download_models_parallel. -/
def fetchFailedCount (rs : List (Except FetchErr FetchRes)) : Nat :=
  (rs.filter isExn).length

/-- The file a fetch outcome left at a final destination name, if any. -/
def promotedOf : Except FetchErr FetchRes → Option (String × Nat)
  | .ok r => r.promoted
  | .error _ => none

/-- Network operations recorded by one gathered outcome. -/
def resNet : Except FetchErr FetchRes → Nat
  | .ok r => r.net
  | .error e => e.net

/-- Total network operations over a gathered batch. -/
def fetchTotalNet (rs : List (Except FetchErr FetchRes)) : Nat :=
  (rs.map resNet).sum

/-- Retry loop of clone_repo from setup_custom_nodes.py: `att a` is the
environment's verdict on the git clone at attempt number `a`; a failed
attempt removes the partial tree and retries. Returns the result and the
number of git clone invocations issued. -/
def cloneLoop (att : Nat → Bool) : Nat → Nat → Bool × Nat
  | _, 0 => (false, 0)
  | a, Nat.succ r =>
    if att a then (true, 1)
    else
      let rest := cloneLoop att (a + 1) r
      (rest.1, rest.2 + 1)

/-- clone_repo from setup_custom_nodes.py (default max_retries = 3): an
existing destination returns success with zero git invocations, otherwise the
retry loop runs. -/
def clone_repo (destExists : Bool) (att : Nat → Bool) (maxRetries : Nat) : Bool × Nat :=
  if destExists then (true, 0) else cloneLoop att 1 maxRetries

/-- Destination existence during the clone stage: the initial tree plus the
directories created by earlier successful clones. -/
def cloneExists (ex0 : String → Bool) (created : List String) (n : String) : Bool :=
  ex0 n || created.contains n

/-- Sequential execution of the gathered clone tasks: each task re-checks
destination existence at its start, a successful clone materializes the
destination for later tasks, and every task contributes a (result, git
invocations) outcome. `env n r a` is the verdict on attempt `a` of cloning
mirror `r` into component `n`. -/
def runClones (env : String → String → Nat → Bool) (ex0 : String → Bool) (maxR : Nat) :
    List (String × String) → List String → List (Bool × Nat)
  | [], _ => []
  | (n, r) :: ts, created =>
    let ex := cloneExists ex0 created n
    let res := clone_repo ex (env n r) maxR
    let created2 := if !ex && res.1 then n :: created else created
    res :: runClones env ex0 maxR ts created2

/-- Task construction of `main` in setup_custom_nodes.py: one clone task per
(name, mirror) pair whose destination does not exist at list-build time. -/
def buildCloneTasks (nodes : List (String × List String)) (ex0 : String → Bool) :
    List (String × String) :=
  nodes.flatMap fun p =>
    p.2.filterMap fun r => if ex0 p.1 then none else some (p.1, r)

/-- The clone stage of `main` in setup_custom_nodes.py: build the task list
against the initial tree, then run the tasks. -/
def setup_main_clone (nodes : List (String × List String)) (ex0 : String → Bool)
    (env : String → String → Nat → Bool) (maxR : Nat) : List (Bool × Nat) :=
  runClones env ex0 maxR (buildCloneTasks nodes ex0) []

/-- success_count of the clone stage report. -/
def cloneSuccessCount (rs : List (Bool × Nat)) : Nat := (rs.filter (·.1)).length

/-- Total git clone invocations of the clone stage. -/
def cloneGitOps (rs : List (Bool × Nat)) : Nat := (rs.map (·.2)).sum

/-- Environment of one install_requirements_single call: the manifest file
size, whether the venv python exists, the per-attempt outcome of the torch
version query, and the per-attempt verdict on the pip subprocess (false covers
both a non-zero exit and an exception). -/
structure InstEnv where
  reqSize : Nat
  pybin : Bool
  torchQ : Nat → Option String
  pipOk : Nat → Bool

/-- Observable outcome of install_requirements_single: the returned Bool, the
number of constraints-file writes, the torch pins written, and the constraint
pin applied by each pip invocation (none when the version query failed). -/
structure InstRes where
  ok : Bool
  writes : Nat
  pins : List String
  uses : List (Option String)
deriving DecidableEq

/-- Control outcome of one install attempt. -/
inductive StepOut where
  | done : Bool → StepOut
  | retry : StepOut
deriving DecidableEq

/-- Instrumented record of one install attempt. -/
structure InstStep where
  out : StepOut
  writes : Nat
  pins : List String
  uses : List (Option String)

/-- One attempt of install_requirements_single from setup_custom_nodes.py:
an empty manifest returns success at once; a missing venv python returns
failure at once; otherwise the torch version is queried and, on success, the
constraints file is written afresh with `torch==<ver>` before pip runs with
the constraint (without it when the query failed); a failed pip run retries. -/
def installStep (e : InstEnv) (a : Nat) : InstStep :=
  if e.reqSize == 0 then ⟨.done true, 0, [], []⟩
  else if !e.pybin then ⟨.done false, 0, [], []⟩
  else
    match e.torchQ a with
    | some v =>
      if e.pipOk a then ⟨.done true, 1, [v], [some v]⟩
      else ⟨.retry, 1, [v], [some v]⟩
    | none =>
      if e.pipOk a then ⟨.done true, 0, [], [none]⟩
      else ⟨.retry, 0, [], [none]⟩

/-- Attempt loop of install_requirements_single (attempt numbers from `a`,
fuel = remaining attempts); exhaustion returns failure. -/
def installGo (e : InstEnv) : Nat → Nat → InstRes
  | _, 0 => ⟨false, 0, [], []⟩
  | a, Nat.succ f =>
    match installStep e a with
    | ⟨.done b, w, ps, us⟩ => ⟨b, w, ps, us⟩
    | ⟨.retry, w, ps, us⟩ =>
      let rest := installGo e (a + 1) f
      ⟨rest.ok, w + rest.writes, ps ++ rest.pins, us ++ rest.uses⟩

/-- install_requirements_single from setup_custom_nodes.py (max_retries = 2). -/
def install_requirements_single (e : InstEnv) : InstRes := installGo e 1 2

/-- install_requirements_parallel from setup_custom_nodes.py: keep the
non-empty manifests and run each install. -/
def install_requirements_parallel (files : List InstEnv) : List InstRes :=
  (files.filter fun f => decide (0 < f.reqSize)).map install_requirements_single

/-- success_count of the install stage report. -/
def installSuccessCount (rs : List InstRes) : Nat := (rs.filter (·.ok)).length

/-- Total constraints-file writes over an installer run. -/
def totalConstraintWrites (rs : List InstRes) : Nat := (rs.map (·.writes)).sum

/-- All torch pins written over an installer run. -/
def allPins (rs : List InstRes) : List String := rs.flatMap (·.pins)

/-- The constraint pin applied by each pip invocation of an installer run. -/
def allUses (rs : List InstRes) : List (Option String) := rs.flatMap (·.uses)

/-- Scenario A manifest: component a with one mirror, component b with two. -/
def nodesA : List (String × List String) :=
  [("a", ["repoA"]), ("b", ["repoB1", "repoB2"])]

/-- Scenario A run: empty destination tree, every clone attempt succeeds. -/
def runA : List (Bool × Nat) :=
  setup_main_clone nodesA (fun _ => false) (fun _ _ _ => true) 3

/-- A civitai locator (final filename known only from the response header). -/
def uCiv : Url := ⟨true, true, "12345", "12345"⟩

/-- A plain locator with a URL-derived filename. -/
def uPlain : Url := ⟨false, false, "", "model.safetensors"⟩

/-- Asset manifest holding one civitai locator. -/
def cfgCiv : List (String × List Url) := [("loras", [uCiv])]

/-- Asset manifest holding one plain locator. -/
def cfgPlain : List (String × List Url) := [("vae", [uPlain])]

/-- A task environment whose aiohttp response is a 404. -/
def env404 : Nat → TaskEnv := fun _ => ⟨PrimOut.exn, HttpOut.resp 404 none 0 false⟩

/-- A task environment whose aiohttp response succeeds with a
Content-Disposition filename. -/
def envCd : Nat → TaskEnv :=
  fun _ => ⟨PrimOut.exn, HttpOut.resp 200 (some "lora.safetensors") 9 false⟩

/-- An install environment whose torch query always answers 2.1.0 and whose
pip runs succeed at once, over a one-byte manifest. -/
def instEnvOk : InstEnv := ⟨1, true, fun _ => some "2.1.0", fun _ => true⟩

end Comfy

namespace Comfy

/-- C3 counterexample: the child exits abnormally (exit status 1) without a
missing-module line, yet the wrapper reports success and the process exits 0. -/
theorem c3_crash_reported_success :
    run_comfyui_with_retry envCrash 3 = ⟨true, 1, 0⟩ ∧ wrapperExit envCrash = 0 :=
  ⟨rfl, rfl⟩

/-- C3 (amended): whenever the supervised child's output stream ends without a
missing-module line, the wrapper returns success after that single launch and
the process exit code is 0, regardless of the child's exit status. -/
theorem c3_stream_end_amended (env : SupEnv) (r i : Nat) (ls : List String) (ec : Int)
    (h0 : env.launch i = LaunchOut.run ls ec)
    (hfind : findMissing ls = none) :
    runGo env (r + 1) i = ⟨true, 1, 0⟩ ∧ (i = 0 → wrapperExit env = 0) := by
  have hstep : ∀ r' : Nat, runGo env (r' + 1) i = ⟨true, 1, 0⟩ := by
    intro r'
    simp only [runGo, h0, hfind]
  refine ⟨hstep r, ?_⟩
  intro hi
  subst hi
  have h3 : runGo env 3 0 = ⟨true, 1, 0⟩ := hstep 2
  simp [wrapperExit, run_comfyui_with_retry, h3]

/-- C3 witness: the amended theorem applied to the crash trace. -/
theorem c3_stream_end_witness :
    runGo envCrash (2 + 1) 0 = ⟨true, 1, 0⟩ ∧ wrapperExit envCrash = 0 := by
  have h := c3_stream_end_amended envCrash 2 0
    ["RuntimeError: CUDA init failed", "Process exited"] 1 rfl rfl
  exact ⟨h.1, h.2 rfl⟩

/-- C6: whenever the supervisor reaches a launch whose first missing-module
line names a module outside the allow-list, it returns failure after that one
launch, with zero further launches and zero installs; started from launch 0
this makes the process exit code 1. -/
theorem c6_disallowed_module_fatal (env : SupEnv) (r i : Nat) (ls : List String)
    (ec : Int) (l n : String)
    (h0 : env.launch i = LaunchOut.run ls ec)
    (hfind : findMissing ls = some l)
    (hdet : detect_missing_module l = some n)
    (hmem : OPTIONAL_MODULES.contains n = false) :
    runGo env (r + 1) i = ⟨false, 1, 0⟩ ∧ (i = 0 → wrapperExit env = 1) := by
  have hstep : ∀ r' : Nat, runGo env (r' + 1) i = ⟨false, 1, 0⟩ := by
    intro r'
    simp only [runGo, h0, hfind, auto_install_missing, hdet, hmem]
    rfl
  refine ⟨hstep r, ?_⟩
  intro hi
  subst hi
  have h3 : runGo env 3 0 = ⟨false, 1, 0⟩ := hstep 2
  simp [wrapperExit, run_comfyui_with_retry, h3]

/-- C6 witness: the theorem applied to a concrete trace naming a module that is
not in the allow-list. -/
theorem c6_disallowed_witness :
    runGo envDisallowed (0 + 1) 0 = ⟨false, 1, 0⟩ ∧ wrapperExit envDisallowed = 1 := by
  have h := c6_disallowed_module_fatal envDisallowed 0 0 [lineNotListed] 1
    lineNotListed "definitely_not_listed" rfl rfl rfl (by decide)
  exact ⟨h.1, h.2 rfl⟩

/-- C10: whenever the supervisor reaches a launch whose first marker line
contains the missing-module text but the quoted-name pattern does not match,
it returns failure after that one launch with no install and no relaunch;
started from launch 0 this makes the process exit code 1. -/
theorem c10_marker_without_name_fatal (env : SupEnv) (r i : Nat) (ls : List String)
    (ec : Int) (l : String)
    (h0 : env.launch i = LaunchOut.run ls ec)
    (hfind : findMissing ls = some l)
    (hdet : detect_missing_module l = none) :
    runGo env (r + 1) i = ⟨false, 1, 0⟩ ∧ (i = 0 → wrapperExit env = 1) := by
  have hstep : ∀ r' : Nat, runGo env (r' + 1) i = ⟨false, 1, 0⟩ := by
    intro r'
    simp only [runGo, h0, hfind, auto_install_missing, hdet]
    rfl
  refine ⟨hstep r, ?_⟩
  intro hi
  subst hi
  have h3 : runGo env 3 0 = ⟨false, 1, 0⟩ := hstep 2
  simp [wrapperExit, run_comfyui_with_retry, h3]

/-- C10 witness: the theorem applied to a marker line with no quoted name. -/
theorem c10_marker_witness :
    runGo envNoName (0 + 1) 0 = ⟨false, 1, 0⟩ ∧ wrapperExit envNoName = 1 := by
  have h := c10_marker_without_name_fatal envNoName 0 0 [lineNoName] 1
    lineNoName rfl rfl rfl
  exact ⟨h.1, h.2 rfl⟩

/-- C9: at the failing input (child emits a missing-module line for the
allow-listed module timm and the remediation install succeeds), the wrapper
performs the install but then returns success immediately: one launch, zero
relaunches, exit code 0 — the `break` after a successful install leaves the
read loop and falls through to the success return, so the bounded
restart-and-relaunch loop the claim describes never runs. -/
theorem c9_install_success_no_relaunch :
    run_comfyui_with_retry envRemediate 3 = ⟨true, 1, 1⟩ ∧ wrapperExit envRemediate = 0 :=
  ⟨rfl, rfl⟩

/-- The aiohttp transport catches every exception of its body and returns a
plain result: it never raises to its caller. -/
theorem aiohttp_isOk (u : Url) (d : String) (ex : String → Bool) (hout : HttpOut) :
    ∃ r, download_with_aiohttp u d ex hout = Except.ok r := by
  unfold download_with_aiohttp
  rcases h : aiohttpBody u d ex hout with e | r
  · exact ⟨_, rfl⟩
  · exact ⟨_, rfl⟩

/-- The aria2c transport never raises to its caller either: every failure
path falls back to the aiohttp transport. -/
theorem aria2c_isOk (u : Url) (d : String) (ex : String → Bool) (prim : PrimOut)
    (hout : HttpOut) : ∃ r, download_with_aria2c u d ex prim hout = Except.ok r := by
  obtain ⟨ra, hra⟩ := aiohttp_isOk u d ex hout
  obtain ⟨rb, hrb⟩ := aiohttp_isOk u (d ++ "/" ++ get_filename_from_url u) ex hout
  by_cases hc : u.civitai = true
  · exact ⟨rb, by simp [download_with_aria2c, hc, hrb]⟩
  · cases prim with
    | exited code bytes =>
      by_cases h0 : (code == 0) = true
      · exact ⟨⟨true, 1, some (d ++ "/" ++ get_filename_from_url u, bytes), false⟩,
          by simp [download_with_aria2c, hc, h0]⟩
      · exact ⟨{ ra with net := ra.net + 1 },
          by simp [download_with_aria2c, hc, h0, hra, addNet]⟩
    | missingBinary => exact ⟨ra, by simp [download_with_aria2c, hc, hra]⟩
    | exn => exact ⟨ra, by simp [download_with_aria2c, hc, hra]⟩

/-- Every gathered fetch outcome is a plain Bool-carrying result, not an
exception. -/
theorem runFetchTask_isOk (base : String) (ex : String → Bool) (te : TaskEnv)
    (t : FetchTask) : ∃ r, runFetchTask base ex te t = Except.ok r := by
  cases t with
  | aio cat u => exact aiohttp_isOk ..
  | aria cat u => exact aria2c_isOk ..

/-- C8: the aria2c transport never raises: for every environment outcome it
returns a plain result; and for a non-civitai locator, a non-zero aria2c exit,
a missing aria2c binary (FileNotFoundError), or any other exception during the
primary attempt each make the call delegate to the secondary aiohttp
transport. -/
theorem c8_fallback_never_raises (u : Url) (d : String) (ex : String → Bool)
    (hout : HttpOut) :
    (∀ prim, ∃ r, download_with_aria2c u d ex prim hout = Except.ok r) ∧
    (u.civitai = false →
      (∀ code bytes, (code == 0) = false →
        download_with_aria2c u d ex (PrimOut.exited code bytes) hout =
          addNet 1 (download_with_aiohttp u d ex hout)) ∧
      download_with_aria2c u d ex PrimOut.missingBinary hout =
        download_with_aiohttp u d ex hout ∧
      download_with_aria2c u d ex PrimOut.exn hout =
        download_with_aiohttp u d ex hout) := by
  refine ⟨fun prim => aria2c_isOk u d ex prim hout, fun hc => ⟨?_, ?_, ?_⟩⟩
  · intro code bytes h0
    simp [download_with_aria2c, hc, h0]
  · simp [download_with_aria2c, hc]
  · simp [download_with_aria2c, hc]

/-- C8 witness: the theorem applied to a concrete non-civitai locator with a
failing primary transport. -/
theorem c8_fallback_witness :
    download_with_aria2c uPlain "/base/vae" (fun _ => false) (PrimOut.exited 1 0)
        (HttpOut.resp 404 none 0 false) =
      addNet 1 (download_with_aiohttp uPlain "/base/vae" (fun _ => false)
        (HttpOut.resp 404 none 0 false)) ∧
    download_with_aria2c uPlain "/base/vae" (fun _ => false) PrimOut.missingBinary
        (HttpOut.resp 404 none 0 false) =
      download_with_aiohttp uPlain "/base/vae" (fun _ => false)
        (HttpOut.resp 404 none 0 false) := by
  have h := c8_fallback_never_raises uPlain "/base/vae" (fun _ => false)
    (HttpOut.resp 404 none 0 false)
  exact ⟨(h.2 rfl).1 1 0 rfl, (h.2 rfl).2.1⟩

/-- C7 counterexample: with a zero-byte transfer reported as exit code 0, the
primary transport promotes a zero-byte file at the final destination and
reports success — the zero-byte guarantee does not hold for the primary
transport. -/
theorem c7_primary_promotes_zero_bytes :
    download_with_aria2c uPlain "/base/checkpoints" (fun _ => false)
        (PrimOut.exited 0 0) HttpOut.exnBefore =
      Except.ok ⟨true, 1, some ("/base/checkpoints/model.safetensors", 0), false⟩ :=
  rfl

/-- C7 (amended): the secondary aiohttp transport never promotes a zero-byte
file (rename happens only after a positive size, and a zero-byte temporary is
deleted with failure reported), but an exception during streaming leaves the
temporary file behind, and the primary aria2c transport writes directly to the
final name and promotes its file on exit code 0 regardless of size. -/
theorem c7_zero_byte_amended :
    (∀ (u : Url) (d : String) (ex : String → Bool) (hout : HttpOut)
        (f : String) (n : Nat),
        promotedOf (download_with_aiohttp u d ex hout) = some (f, n) → 0 < n) ∧
    (∀ (u : Url) (d : String) (ex : String → Bool) (cd : Option String),
        ex (d ++ "/" ++ resolvedName u cd) = false →
        download_with_aiohttp u d ex (HttpOut.resp 200 cd 0 false) =
          Except.ok ⟨false, 1, none, false⟩) ∧
    (∀ (u : Url) (d : String) (ex : String → Bool) (cd : Option String) (body : Nat),
        ex (d ++ "/" ++ resolvedName u cd) = false →
        download_with_aiohttp u d ex (HttpOut.resp 200 cd body true) =
          Except.ok ⟨false, 1, none, true⟩) ∧
    (∀ (u : Url) (d : String) (ex : String → Bool) (hout : HttpOut) (n : Nat),
        u.civitai = false →
        download_with_aria2c u d ex (PrimOut.exited 0 n) hout =
          Except.ok ⟨true, 1, some (d ++ "/" ++ get_filename_from_url u, n), false⟩) := by
  refine ⟨?_, ?_, ?_, ?_⟩
  · intro u d ex hout f n h
    cases hout with
    | exnBefore => simp [download_with_aiohttp, aiohttpBody, promotedOf] at h
    | resp status cd body wexn =>
      by_cases hs : (status == 200) = true
      · by_cases he : ex (d ++ "/" ++ resolvedName u cd) = true
        · simp [download_with_aiohttp, aiohttpBody, promotedOf, hs, he] at h
        · by_cases hw : wexn = true
          · simp [download_with_aiohttp, aiohttpBody, promotedOf, hs, he, hw] at h
          · by_cases hb : 0 < body
            · simp [download_with_aiohttp, aiohttpBody, promotedOf, hs, he, hw, hb] at h
              obtain ⟨-, rfl⟩ := h
              exact hb
            · simp [download_with_aiohttp, aiohttpBody, promotedOf, hs, he, hw, hb] at h
      · simp [download_with_aiohttp, aiohttpBody, promotedOf, hs] at h
  · intro u d ex cd he
    simp [download_with_aiohttp, aiohttpBody, he]
  · intro u d ex cd body he
    simp [download_with_aiohttp, aiohttpBody, he]
  · intro u d ex hout n hc
    simp [download_with_aria2c, hc]

/-- C7 witness: the amended theorem applied to concrete transfers. -/
theorem c7_zero_byte_witness :
    (0 : Nat) < 9 ∧
    download_with_aiohttp uPlain "/base/vae" (fun _ => false)
        (HttpOut.resp 200 none 0 false) = Except.ok ⟨false, 1, none, false⟩ ∧
    download_with_aiohttp uPlain "/base/vae" (fun _ => false)
        (HttpOut.resp 200 none 3 true) = Except.ok ⟨false, 1, none, true⟩ ∧
    download_with_aria2c uPlain "/base/vae" (fun _ => false) (PrimOut.exited 0 4)
        HttpOut.exnBefore =
      Except.ok ⟨true, 1, some ("/base/vae/model.safetensors", 4), false⟩ := by
  have h := c7_zero_byte_amended
  refine ⟨?_, ?_, ?_, ?_⟩
  · exact h.1 uPlain "/base/vae" (fun _ => false) (HttpOut.resp 200 none 9 false)
      "/base/vae/model.safetensors" 9 rfl
  · exact h.2.1 uPlain "/base/vae" (fun _ => false) none rfl
  · exact h.2.2.1 uPlain "/base/vae" (fun _ => false) none 3 rfl
  · exact h.2.2.2 uPlain "/base/vae" (fun _ => false) HttpOut.exnBefore 4 rfl

/-- C2 counterexample: re-running the fetch stage over a tree where every
destination exists still issues one network request for a civitai item — the
existence check happens only after the HTTP response arrives. -/
theorem c2_civitai_netop_counterexample :
    fetchTotalNet (download_models_parallel true "/base" (fun _ => true) envCd cfgCiv) = 1 ∧
    (1 : Nat) ≠ 0 :=
  ⟨rfl, by decide⟩

/-- C2 (amended): re-running the clone stage against a tree where every
component destination exists creates no clone task (and an existing
destination makes clone_repo succeed with zero git invocations); re-running
the fetch stage performs zero network operations for non-civitai items when
aria2c is available, but a civitai item is only skipped after its one HTTP
request has resolved the true filename. -/
theorem c2_idempotence_amended :
    (∀ (nodes : List (String × List String)) (ex0 : String → Bool),
        (∀ p ∈ nodes, ex0 p.1 = true) → buildCloneTasks nodes ex0 = []) ∧
    (∀ (att : Nat → Bool) (maxR : Nat), clone_repo true att maxR = (true, 0)) ∧
    (∀ (base : String) (ex : String → Bool) (cfg : List (String × List Url)),
        (∀ p ∈ cfg, ∀ u ∈ p.2, u.civitai = false ∧ ex (destPath base p.1 u) = true) →
        buildFetchTasks true base ex cfg = [] ∧
        ∀ envs, fetchTotalNet (download_models_parallel true base ex envs cfg) = 0) ∧
    (∀ (u : Url) (d : String) (ex : String → Bool) (cd : Option String) (body : Nat)
        (wexn : Bool),
        ex (d ++ "/" ++ resolvedName u cd) = true →
        download_with_aiohttp u d ex (HttpOut.resp 200 cd body wexn) =
          Except.ok ⟨true, 1, none, false⟩) := by
  refine ⟨?_, ?_, ?_, ?_⟩
  · intro nodes ex0 h
    unfold buildCloneTasks
    rw [List.flatMap_eq_nil_iff]
    intro p hp
    rw [List.filterMap_eq_nil_iff]
    intro r hr
    simp [h p hp]
  · intro att maxR
    simp [clone_repo]
  · intro base ex cfg h
    have hempty : buildFetchTasks true base ex cfg = [] := by
      unfold buildFetchTasks
      rw [List.flatMap_eq_nil_iff]
      intro p hp
      rw [List.filterMap_eq_nil_iff]
      intro u hu
      simp [(h p hp u hu).1, (h p hp u hu).2]
    refine ⟨hempty, fun envs => ?_⟩
    simp [download_models_parallel, hempty, runFetchAll, fetchTotalNet]
  · intro u d ex cd body wexn he
    simp [download_with_aiohttp, aiohttpBody, he]

/-- C2 witness: the amended theorem applied to concrete manifests over a
fully-materialized tree. -/
theorem c2_idempotence_witness :
    buildCloneTasks nodesA (fun _ => true) = [] ∧
    clone_repo true (fun _ => true) 3 = (true, 0) ∧
    buildFetchTasks true "/base" (fun _ => true) cfgPlain = [] ∧
    fetchTotalNet (download_models_parallel true "/base" (fun _ => true) env404 cfgPlain) = 0 ∧
    download_with_aiohttp uCiv "/base/loras" (fun _ => true)
        (HttpOut.resp 200 (some "lora.safetensors") 9 false) =
      Except.ok ⟨true, 1, none, false⟩ := by
  have h := c2_idempotence_amended
  have hPlain : ∀ p ∈ cfgPlain, ∀ u ∈ p.2,
      u.civitai = false ∧ (fun _ => true) (destPath "/base" p.1 u) = true := by decide
  refine ⟨h.1 nodesA (fun _ => true) (fun _ _ => rfl), h.2.1 (fun _ => true) 3, ?_, ?_, ?_⟩
  · exact (h.2.2.1 "/base" (fun _ => true) cfgPlain hPlain).1
  · exact (h.2.2.1 "/base" (fun _ => true) cfgPlain hPlain).2 env404
  · exact h.2.2.2 uCiv "/base/loras" (fun _ => true) (some "lora.safetensors") 9 false rfl

/-- C5 counterexample: one fetch item that fails by returning False is counted
neither in success_count nor in failed_count (which only counts exceptions),
so the reported counts do not account for every item. -/
theorem c5_unaccounted_counterexample :
    fetchSuccessCount (download_models_parallel false "/base" (fun _ => false) env404 cfgPlain) = 0 ∧
    fetchFailedCount (download_models_parallel false "/base" (fun _ => false) env404 cfgPlain) = 0 ∧
    (download_models_parallel false "/base" (fun _ => false) env404 cfgPlain).length = 1 ∧
    (0 + 0 : Nat) ≠ 1 :=
  ⟨rfl, rfl, rfl, by decide⟩

/-- C5 (amended): every scheduled item contributes exactly one gathered
outcome, an item's outcome depends only on its own environment (no sibling
failure can abort it), and no outcome is an exception — so failed_count is
always zero and only items returning True appear in success_count; the
install stage likewise reports one outcome per non-empty manifest. -/
theorem c5_aggregation_amended :
    (∀ (base : String) (ex : String → Bool) (envs : Nat → TaskEnv)
        (tasks : List FetchTask) (i : Nat),
        (runFetchAll base ex envs tasks i).length = tasks.length) ∧
    (∀ (base : String) (ex : String → Bool) (envs : Nat → TaskEnv)
        (tasks : List FetchTask) (i : Nat),
        fetchFailedCount (runFetchAll base ex envs tasks i) = 0) ∧
    (∀ (base : String) (ex : String → Bool) (envs : Nat → TaskEnv)
        (tasks : List FetchTask) (s j : Nat),
        (runFetchAll base ex envs tasks s).get? j =
          (tasks.get? j).map (runFetchTask base ex (envs (s + j)))) ∧
    (∀ files : List InstEnv,
        (install_requirements_parallel files).length =
          (files.filter fun f => decide (0 < f.reqSize)).length) := by
  refine ⟨?_, ?_, ?_, ?_⟩
  · intro base ex envs tasks
    induction tasks with
    | nil => intro i; rfl
    | cons t ts ih => intro i; simp [runFetchAll, ih]
  · intro base ex envs tasks
    induction tasks with
    | nil => intro i; rfl
    | cons t ts ih =>
      intro i
      obtain ⟨r, hr⟩ := runFetchTask_isOk base ex (envs i) t
      have hx : ¬ isExn (runFetchTask base ex (envs i) t) = true := by
        rw [hr]
        simp [isExn]
      simp only [runFetchAll, fetchFailedCount]
      rw [List.filter_cons_of_neg hx]
      exact ih (i + 1)
  · intro base ex envs tasks
    induction tasks with
    | nil => intro s j; simp [runFetchAll]
    | cons t ts ih =>
      intro s j
      cases j with
      | zero => simp [runFetchAll]
      | succ j =>
        have h1 : s + 1 + j = s + (j + 1) := by omega
        simp only [runFetchAll, List.get?_cons_succ]
        rw [ih (s + 1) j, h1]
  · intro files
    simp [install_requirements_parallel]

/-- All pins written during one install are the queried version, every pip
invocation applies that pin, and each pip invocation is preceded by exactly
one fresh constraints-file write. -/
theorem installGo_pins (e : InstEnv) (c : String) (hq : ∀ a, e.torchQ a = some c) :
    ∀ f a, (∀ p ∈ (installGo e a f).pins, p = c) ∧
      (∀ o ∈ (installGo e a f).uses, o = some c) ∧
      (installGo e a f).writes = (installGo e a f).uses.length := by
  intro f
  induction f with
  | zero => intro a; simp [installGo]
  | succ f ih =>
    intro a
    have hrec := ih (a + 1)
    by_cases h1 : (e.reqSize == 0) = true
    · simp [installGo, installStep, h1]
    · by_cases h2 : e.pybin = true
      · by_cases h3 : e.pipOk a = true
        · simp [installGo, installStep, h1, h2, h3, hq a]
        · have hstep : installStep e a = ⟨StepOut.retry, 1, [c], [some c]⟩ := by
            simp [installStep, h1, h2, h3, hq a]
          have hgo : installGo e a (f + 1) =
              ⟨(installGo e (a + 1) f).ok, 1 + (installGo e (a + 1) f).writes,
               [c] ++ (installGo e (a + 1) f).pins,
               [some c] ++ (installGo e (a + 1) f).uses⟩ := by
            simp only [installGo, hstep]
          rw [hgo]
          refine ⟨?_, ?_, ?_⟩
          · intro p hp
            rcases List.mem_append.mp hp with hp | hp
            · simpa using hp
            · exact hrec.1 p hp
          · intro o ho
            rcases List.mem_append.mp ho with ho | ho
            · simpa using ho
            · exact hrec.2.1 o ho
          · simp only [List.length_append]
            rw [hrec.2.2]
            simp
      · simp only [Bool.not_eq_true] at h2
        simp [installGo, installStep, h1, h2]

/-- Aggregate form of the per-install constraint facts over a whole run. -/
theorem installAgg (c : String) (rs : List InstRes)
    (h : ∀ r ∈ rs, (∀ p ∈ r.pins, p = c) ∧ (∀ o ∈ r.uses, o = some c) ∧
      r.writes = r.uses.length) :
    (∀ p ∈ allPins rs, p = c) ∧ (∀ o ∈ allUses rs, o = some c) ∧
    totalConstraintWrites rs = (allUses rs).length := by
  induction rs with
  | nil => simp [allPins, allUses, totalConstraintWrites]
  | cons r rs ih =>
    have hr := h r (List.mem_cons_self r rs)
    have hrest := ih fun x hx => h x (List.mem_cons_of_mem r hx)
    refine ⟨?_, ?_, ?_⟩
    · intro p hp
      simp only [allPins, List.flatMap_cons, List.mem_append] at hp
      rcases hp with hp | hp
      · exact hr.1 p hp
      · exact hrest.1 p hp
    · intro o ho
      simp only [allUses, List.flatMap_cons, List.mem_append] at ho
      rcases ho with ho | ho
      · exact hr.2.1 o ho
      · exact hrest.2.1 o ho
    · simp only [totalConstraintWrites, allUses, List.map_cons, List.sum_cons,
        List.flatMap_cons, List.length_append]
      have h2 := hrest.2.2
      simp only [totalConstraintWrites, allUses] at h2
      rw [h2, hr.2.2]

/-- C4 counterexample: a run with two dependency manifests writes the
constraints file twice — once per installation, not once per run. -/
theorem c4_constraints_counterexample :
    totalConstraintWrites (install_requirements_parallel [instEnvOk, instEnvOk]) = 2 ∧
    (2 : Nat) ≠ 1 :=
  ⟨rfl, by decide⟩

/-- C4 (amended): the constraints file is recomputed and rewritten once per
pip invocation of every manifest install (never exactly once per run), and
when the protected package's version query answers the same version
throughout the run, every written pin and every applied constraint is that
version. -/
theorem c4_constraints_amended (files : List InstEnv) (c : String)
    (hq : ∀ e ∈ files, ∀ a, e.torchQ a = some c) :
    (∀ p ∈ allPins (install_requirements_parallel files), p = c) ∧
    (∀ o ∈ allUses (install_requirements_parallel files), o = some c) ∧
    totalConstraintWrites (install_requirements_parallel files) =
      (allUses (install_requirements_parallel files)).length := by
  refine installAgg c _ ?_
  intro r hr
  simp only [install_requirements_parallel, List.mem_map] at hr
  obtain ⟨e, he, rfl⟩ := hr
  have he2 : e ∈ files := (List.mem_filter.mp he).1
  exact installGo_pins e c (hq e he2) 2 1

/-- C4 witness: the amended theorem applied to a concrete single-manifest run
whose version query constantly answers 2.1.0. -/
theorem c4_constraints_witness :
    totalConstraintWrites (install_requirements_parallel [instEnvOk]) =
      (allUses (install_requirements_parallel [instEnvOk])).length :=
  (c4_constraints_amended [instEnvOk] "2.1.0"
    (by intro e he a; rw [List.mem_singleton] at he; subst he; rfl)).2.2

/-- C1 counterexample: Scenario A builds one clone task per (name, mirror)
pair, so the batch reports 3/3 success, not the claimed 2/2. -/
theorem c1_report_not_two_of_two :
    (cloneSuccessCount runA, runA.length) = (3, 3) ∧
    ((3, 3) : Nat × Nat) ≠ (2, 2) :=
  ⟨rfl, by decide⟩

/-- C1 (amended): on Scenario A against an empty tree with every clone
succeeding, three tasks are gathered (one per (name, mirror) pair); under
in-order task completion exactly one git clone is issued per component name
(the second mirror task of b skips because b already exists), every task
reports success, and the batch reports 3/3. -/
theorem c1_scenarioA_amended :
    runA = [(true, 1), (true, 1), (true, 0)] ∧
    cloneSuccessCount runA = 3 ∧ runA.length = 3 ∧ cloneGitOps runA = 2 :=
  ⟨rfl, rfl, rfl, rfl⟩

end Comfy
